import Mathlib

/-!
Verification of the convergence-verification subsystem and the
build-event-stream consumer of the now-cli scale/deploy commands.

The definitions below are shallow embeddings of the JavaScript source:
  - the scale command file (argument handling, `waitForScale`,
    `isInstanceCountBetween`, `onExit`), and
  - `src/providers/sh/commands/inspect.js` (`waitForScale`,
    `getMatchingScalePresets`, `matchMinPresets`, the build-event
    for-await loop, `formatText`).
JavaScript numbers that hold instance counts and scale bounds are
modelled as `Int` (counts that occur are non-negative list lengths, cast
into `Int` where compared); the scale upper bound is a number or the
string literal for automatic scaling, modelled by `MaxBound`.
-/

/-- The `max` field of a scale preset: a numeric bound, or the
string literal for automatic scaling, which the source compares as
positive infinity inside `isInstanceCountBetween`. -/
inductive MaxBound
  | auto
  | bounded (n : Int)
deriving DecidableEq, Repr

/-- One scale preset as submitted per datacenter: the `{ min, max }`
object built by the scale command and stored in `deployment.scale`. -/
structure ScalePreset where
  min : Int
  max : MaxBound
deriving DecidableEq, Repr

/-- The per-datacenter entry of an instances snapshot: the object
`data[dc]` with its `instances` array; only the length of the array is
consumed by the source. -/
structure DcData where
  instances : List String
deriving DecidableEq, Repr

/-- A point-in-time instances snapshot: the JSON object returned by the
instances endpoint, keyed by datacenter identifier; a datacenter absent
from the object is `none`. -/
def Snapshot : Type := String → Option DcData

/-- Embedding of `isInstanceCountBetween(v, min, max)` from the scale
command: `false` when `v < min`, `false` when `v` exceeds the upper
bound (infinity when the bound is automatic), `true` otherwise. -/
def isInstanceCountBetween (v : Int) (min : Int) (max : MaxBound) : Bool :=
  if v < min then
    false
  else if (match max with
          | MaxBound.auto => false
          | MaxBound.bounded m => v > m) then
    false
  else
    true

/-- Embedding of `matchMinPresets(scalePreset, instancesObj)` from
inspect.js: the observed instance count is compared only against the
threshold `Math.max(1, scalePreset.min)`; the `max` field of the preset
is never read. -/
def matchMinPresets (scalePreset : ScalePreset) (instancesObj : DcData) : Bool :=
  (instancesObj.instances.length : Int) ≥ max 1 scalePreset.min

/-- Embedding of `getMatchingScalePresets(scale, instances, predicate)`
from inspect.js: the datacenters of `scale` (as an association list, in
key order) whose snapshot entry satisfies the predicate.  The source
indexes `instances[dc]` without an existence check, so the predicate
receives the raw `Option`-valued lookup; inspect.js always calls it with
`matchMinPresets`, which dereferences the entry. -/
def getMatchingScalePresets (scale : List (String × ScalePreset))
    (instances : Snapshot) (predicate : ScalePreset → Option DcData → Bool) :
    List String :=
  scale.foldl (fun result p => if predicate p.2 (instances p.1) then result ++ [p.1] else result) []

/-- C1: `isInstanceCountBetween` treats the bounds inclusively.  For a
bounded constraint with `min ≤ max`: `v = min` and `v = max` converge,
`v = min - 1` and `v = max + 1` do not; for an automatic (unbounded)
upper bound every `v ≥ min` converges. -/
theorem isInstanceCountBetween_inclusive (min m v : Int) (hle : min ≤ m) :
    isInstanceCountBetween min min (MaxBound.bounded m) = true ∧
    isInstanceCountBetween m min (MaxBound.bounded m) = true ∧
    isInstanceCountBetween (min - 1) min (MaxBound.bounded m) = false ∧
    isInstanceCountBetween (m + 1) min (MaxBound.bounded m) = false ∧
    (min ≤ v → isInstanceCountBetween v min MaxBound.auto = true) := by
  refine ⟨?_, ?_, ?_, ?_, ?_⟩ <;> simp [isInstanceCountBetween] <;> omega

/-- Witness for C1 at `min = 2`, `max = 5`, `v = 7`. -/
theorem isInstanceCountBetween_inclusive_witness :
    isInstanceCountBetween 2 2 (MaxBound.bounded 5) = true ∧
    isInstanceCountBetween 5 2 (MaxBound.bounded 5) = true ∧
    isInstanceCountBetween (2 - 1) 2 (MaxBound.bounded 5) = false ∧
    isInstanceCountBetween (5 + 1) 2 (MaxBound.bounded 5) = false ∧
    ((2 : Int) ≤ 7 → isInstanceCountBetween 7 2 MaxBound.auto = true) :=
  isInstanceCountBetween_inclusive 2 5 7 (by decide)

/-- One pass of the `for (const dc of intendedScaleDcs)` loop inside the
`waitForScale` loop of the scale command, on one fetched snapshot.  The remaining
datacenters are kept as a list in the iteration (insertion) order of the
JavaScript `Set`.  Faithful to the source: when `data[dc]` is missing
the loop executes `break`, so the datacenter AND every datacenter after
it are returned unchanged for this cycle; when the count of the datacenter
satisfies `isInstanceCountBetween` it is deleted from the set. -/
def processCycle (intendedScale : String → ScalePreset) (data : Snapshot) :
    List String → List String
  | [] => []
  | dc :: rest =>
    match data dc with
    | none => dc :: rest
    | some currentScale =>
      if isInstanceCountBetween (currentScale.instances.length : Int)
          (intendedScale dc).min (intendedScale dc).max then
        processCycle intendedScale data rest
      else
        dc :: processCycle intendedScale data rest

/-- The outcome of one `now.fetch` of the instances endpoint inside the
poll loop: the parsed snapshot, or a transport-level failure (a rejected
promise carrying an error). -/
inductive FetchResult
  | ok (s : Snapshot)
  | failed (e : String)

/-- How the `waitForScale` promise of the scale command settles: normal
return, the thrown timeout `Error` (which carries only its message
string), or a transport error propagated out of `now.fetch`. -/
inductive WaitResult
  | success
  | timeoutErr (msg : String)
  | fetchError (e : String)
deriving DecidableEq, Repr

/-- Embedding of the `waitForScale` poll loop of the scale command.  Time is
modelled by the list of fetch outcomes available before the deadline:
each loop iteration first checks the deadline (list exhausted: the
source throws `new Error` with the fixed message `Timeout while
verifying instance count (10m)` and nothing else attached), then
awaits the fetch (a rejected fetch propagates out of the loop), then
runs one `processCycle` pass and returns when no datacenter remains. -/
def waitForScale (intendedScale : String → ScalePreset) :
    List FetchResult → List String → WaitResult
  | [], _ => WaitResult.timeoutErr "Timeout while verifying instance count (10m)"
  | FetchResult.failed e :: _, _ => WaitResult.fetchError e
  | FetchResult.ok data :: rest, remaining =>
    let remaining2 := processCycle intendedScale data remaining
    if remaining2.isEmpty then
      WaitResult.success
    else
      waitForScale intendedScale rest remaining2

/-- C2 counterexample: at preset `{min := 0, max := 0}` and an empty
instance list, `matchMinPresets` of the deploy path rejects (it demands
at least `Math.max(1, 0) = 1` instance) while `isInstanceCountBetween`
of the scale path accepts (`0` lies in `[0, 0]`), so the two
verification paths do not decide convergence with one and the same
policy. -/
theorem matchMinPresets_ne_isInstanceCountBetween :
    matchMinPresets { min := 0, max := MaxBound.bounded 0 } { instances := [] } = false ∧
    isInstanceCountBetween ((({ instances := [] } : DcData)).instances.length : Int)
      0 (MaxBound.bounded 0) = true := by
  decide

/-- C2 amended: the two paths agree only on part of the preset space.
Whenever `1 ≤ min` and `max` is the automatic bound, `matchMinPresets`
coincides with `isInstanceCountBetween` on the observed count; outside
that region they can differ (see the counterexample). -/
theorem matchMinPresets_eq_isBetween_of_min_pos_auto (p : ScalePreset) (obs : DcData)
    (hmin : 1 ≤ p.min) (hmax : p.max = MaxBound.auto) :
    matchMinPresets p obs =
      isInstanceCountBetween (obs.instances.length : Int) p.min p.max := by
  obtain ⟨pmin, pmax⟩ := p
  simp only at hmin hmax
  subst hmax
  simp only [matchMinPresets, isInstanceCountBetween, max_eq_right hmin]
  by_cases h : (obs.instances.length : Int) < pmin
  · simp [h]
  · simp [h]
    omega

/-- Witness for the amended C2 at `{min := 1, max := auto}` and a
two-instance observation. -/
theorem matchMinPresets_eq_isBetween_witness :
    (1 : Int) ≤ ({ min := 1, max := MaxBound.auto } : ScalePreset).min ∧
    matchMinPresets { min := 1, max := MaxBound.auto } { instances := ["a", "b"] } =
      isInstanceCountBetween
        ((({ instances := ["a", "b"] } : DcData)).instances.length : Int)
        ({ min := 1, max := MaxBound.auto } : ScalePreset).min
        ({ min := 1, max := MaxBound.auto } : ScalePreset).max :=
  ⟨by decide,
   matchMinPresets_eq_isBetween_of_min_pos_auto
     { min := 1, max := MaxBound.auto } { instances := ["a", "b"] } (by decide) rfl⟩

/-- A concrete intended-scale map for counterexamples: every datacenter
is constrained to exactly one instance. -/
def oneEachScale : String → ScalePreset :=
  fun _ => { min := 1, max := MaxBound.bounded 1 }

/-- A concrete snapshot in which the datacenter `sfo` is absent and the
datacenter `bru` reports exactly one running instance. -/
def sfoMissingSnap : Snapshot :=
  fun dc => if dc = "bru" then some { instances := ["i1"] } else none

/-- C3 counterexample: with still-unconverged set `[sfo, bru]` (in that
iteration order), a snapshot that is missing `sfo` but reports `bru`
with a satisfying count leaves BOTH datacenters unconverged after the
cycle: the `break` on the absent `sfo` prevents `bru` from being
evaluated in that cycle, although `bru` is present in the snapshot and
its count satisfies its bounds. -/
theorem processCycle_break_skips_later_dcs :
    processCycle oneEachScale sfoMissingSnap ["sfo", "bru"] = ["sfo", "bru"] ∧
    sfoMissingSnap "bru" = some { instances := ["i1"] } ∧
    isInstanceCountBetween ((["i1"] : List String).length : Int) 1 (MaxBound.bounded 1) = true := by
  refine ⟨rfl, rfl, rfl⟩

/-- C3 amended: in one poll cycle, a datacenter absent from the snapshot
is treated as not yet observed and raises no error, but the per-cycle
scan stops there (`break`): every datacenter strictly before it in
iteration order is still evaluated normally, while the absent datacenter
and every datacenter after it are returned unchanged for that cycle
(they are evaluated again in later cycles). -/
theorem processCycle_stops_at_missing (intendedScale : String → ScalePreset)
    (data : Snapshot) (pre : List String) (dc : String) (rest : List String)
    (hpre : ∀ r ∈ pre, data r ≠ none) (hdc : data dc = none) :
    processCycle intendedScale data (pre ++ dc :: rest) =
      processCycle intendedScale data pre ++ dc :: rest := by
  induction pre with
  | nil => simp [processCycle, hdc]
  | cons r pre ih =>
    have hr := hpre r (by simp)
    cases h : data r with
    | none => exact absurd h hr
    | some d =>
      have ih2 := ih (fun x hx => hpre x (List.mem_cons_of_mem _ hx))
      cases hc : isInstanceCountBetween (d.instances.length : Int)
          (intendedScale r).min (intendedScale r).max <;>
        simp [processCycle, h, hc, ih2]

/-- Witness for the amended C3: datacenter `ams` (present, one instance)
precedes the absent `sfo`; `bru` follows it. -/
theorem processCycle_stops_at_missing_witness :
    (∀ r ∈ ["bru"], sfoMissingSnap r ≠ none) ∧
    sfoMissingSnap "sfo" = none ∧
    processCycle oneEachScale sfoMissingSnap (["bru"] ++ "sfo" :: ["ams"]) =
      processCycle oneEachScale sfoMissingSnap ["bru"] ++ "sfo" :: ["ams"] :=
  ⟨by decide, rfl,
   processCycle_stops_at_missing oneEachScale sfoMissingSnap ["bru"] "sfo" ["ams"]
     (by decide) rfl⟩

/-- Helper: one `processCycle` pass only ever deletes datacenters — the
result is a sublist (order-preserving subselection) of the input. -/
theorem processCycle_sublist (intendedScale : String → ScalePreset)
    (data : Snapshot) (r : List String) :
    (processCycle intendedScale data r).Sublist r := by
  induction r with
  | nil => simp [processCycle]
  | cons dc rest ih =>
    cases h : data dc with
    | none => simp [processCycle, h]
    | some d =>
      cases hc : isInstanceCountBetween (d.instances.length : Int)
          (intendedScale dc).min (intendedScale dc).max <;>
        simp [processCycle, h, hc]
      · exact ih
      · exact List.Sublist.cons dc ih

/-- The still-unconverged set held by `waitForScale` after processing a
given list of successfully fetched snapshots: the fold of `processCycle`
over the snapshots, starting from the initial datacenter list. -/
def remainingAfter (intendedScale : String → ScalePreset)
    (snaps : List Snapshot) (r : List String) : List String :=
  snaps.foldl (fun acc s => processCycle intendedScale s acc) r

/-- Helper: the still-unconverged set after any snapshot sequence is a
sublist of the initial set. -/
theorem remainingAfter_sublist (intendedScale : String → ScalePreset)
    (snaps : List Snapshot) (r : List String) :
    (remainingAfter intendedScale snaps r).Sublist r := by
  induction snaps generalizing r with
  | nil => simp [remainingAfter]
  | cons s snaps ih =>
    exact List.Sublist.trans (ih (processCycle intendedScale s r))
      (processCycle_sublist intendedScale s r)

/-- C7: within one `waitForScale` invocation the unconverged set only
shrinks: after further poll cycles its size is no larger than before,
and a datacenter no longer in the set after some cycles never reappears
after later cycles, whatever those later snapshots report. -/
theorem waitForScale_remaining_monotone (intendedScale : String → ScalePreset)
    (snaps snaps2 : List Snapshot) (r : List String) (dc : String) :
    (remainingAfter intendedScale (snaps ++ snaps2) r).length ≤
      (remainingAfter intendedScale snaps r).length ∧
    (dc ∉ remainingAfter intendedScale snaps r →
      dc ∉ remainingAfter intendedScale (snaps ++ snaps2) r) := by
  have hsub : (remainingAfter intendedScale (snaps ++ snaps2) r).Sublist
      (remainingAfter intendedScale snaps r) := by
    rw [remainingAfter, List.foldl_append]
    exact remainingAfter_sublist intendedScale snaps2 _
  exact ⟨hsub.length_le, fun h hmem => h (hsub.subset hmem)⟩

/-- Witness for C7: after the cycle on a snapshot that satisfies `bru`,
the set has shrunk to `[sfo]`, and a later regressing (empty) snapshot
does not re-add `bru`. -/
theorem waitForScale_remaining_monotone_witness :
    (remainingAfter oneEachScale ([fun _ => some { instances := ["i1"] }] ++
        [fun _ => none]) ["sfo"]).length ≤
      (remainingAfter oneEachScale [fun _ => some { instances := ["i1"] }] ["sfo"]).length ∧
    ("bru" ∉ remainingAfter oneEachScale [fun _ => some { instances := ["i1"] }] ["sfo"] →
      "bru" ∉ remainingAfter oneEachScale ([fun _ => some { instances := ["i1"] }] ++
        [fun _ => none]) ["sfo"]) :=
  waitForScale_remaining_monotone oneEachScale
    [fun _ => some { instances := ["i1"] }] [fun _ => none] ["sfo"] "bru"

/-- Helper: a datacenter that is absent from the snapshot survives the
cycle — it is never removed from the unconverged set. -/
theorem mem_processCycle_of_missing (intendedScale : String → ScalePreset)
    (data : Snapshot) (dc : String) (r : List String)
    (hdc : data dc = none) (hmem : dc ∈ r) :
    dc ∈ processCycle intendedScale data r := by
  induction r with
  | nil => simp at hmem
  | cons x rest ih =>
    cases h : data x with
    | none => simpa [processCycle, h] using hmem
    | some d =>
      have hx : dc ≠ x := fun he => by rw [he, h] at hdc; exact Option.noConfusion hdc
      have hrest : dc ∈ rest := by
        rcases List.mem_cons.mp hmem with he | hr
        · exact absurd he hx
        · exact hr
      cases hc : isInstanceCountBetween (d.instances.length : Int)
          (intendedScale x).min (intendedScale x).max <;>
        simp [processCycle, h, hc]
      · exact Or.inr (ih hrest)
      · exact ih hrest

/-- C4 counterexample: with an empty fetch budget (deadline already
elapsed), the run with unconverged set `[sfo]` and the run with
unconverged set `[bru]` throw one and the same error value — the plain
`Error` with the fixed message `Timeout while verifying instance count
(10m)` — so the thrown error cannot carry the still-unconverged region
identifiers (the message does not even contain the region id `sfo`). -/
theorem waitForScale_timeout_carries_no_regions :
    waitForScale oneEachScale [] ["sfo"] = waitForScale oneEachScale [] ["bru"] ∧
    waitForScale oneEachScale [] ["sfo"] =
      WaitResult.timeoutErr "Timeout while verifying instance count (10m)" ∧
    ¬ List.IsInfix "sfo".data "Timeout while verifying instance count (10m)".data := by
  refine ⟨rfl, rfl, ?_⟩
  decide

/-- Helper: every timeout error thrown by the poll loop carries the one
fixed message string, whatever the constraints and fetch history. -/
theorem waitForScale_timeout_msg_fixed (intendedScale : String → ScalePreset) :
    ∀ (fetches : List FetchResult) (r : List String) (msg : String),
      waitForScale intendedScale fetches r = WaitResult.timeoutErr msg →
      msg = "Timeout while verifying instance count (10m)"
  | [], _, _, h => by
    simp only [waitForScale, WaitResult.timeoutErr.injEq] at h
    exact h.symm
  | FetchResult.failed e :: rest, r, msg, h => by
    simp [waitForScale] at h
  | FetchResult.ok data :: rest, r, msg, h => by
    simp only [waitForScale] at h
    split at h
    · exact absurd h (by simp)
    · exact waitForScale_timeout_msg_fixed intendedScale rest _ msg h

/-- Helper: a datacenter that appears in no fetched snapshot keeps the
run from converging, so the loop runs the deadline down and throws the
fixed timeout error. -/
theorem waitForScale_missing_region_timeout (intendedScale : String → ScalePreset) :
    ∀ (snaps : List Snapshot) (remaining : List String) (dc : String),
      dc ∈ remaining → (∀ s ∈ snaps, s dc = none) →
      waitForScale intendedScale (snaps.map FetchResult.ok) remaining =
        WaitResult.timeoutErr "Timeout while verifying instance count (10m)"
  | [], _, _, _, _ => rfl
  | s :: snaps, remaining, dc, hmem, hmiss => by
    have h1 : dc ∈ processCycle intendedScale s remaining :=
      mem_processCycle_of_missing intendedScale s dc remaining (hmiss s (by simp)) hmem
    have h2 : (processCycle intendedScale s remaining).isEmpty = false := by
      cases hpc : processCycle intendedScale s remaining with
      | nil => rw [hpc] at h1; simp at h1
      | cons a l => rfl
    simp only [List.map_cons, waitForScale, h2]
    exact waitForScale_missing_region_timeout intendedScale snaps _ dc h1
      (fun t ht => hmiss t (List.mem_cons_of_mem _ ht))

/-- C4 amended: when the deadline elapses with unconverged datacenters,
`waitForScale` throws a plain `Error` whose message is always the fixed
string `Timeout while verifying instance count (10m)`; the unconverged
region set is not attached to the error.  In particular, a constraint
set containing a datacenter that appears in no snapshot before the
deadline does end in exactly this fixed timeout error. -/
theorem waitForScale_timeout_plain_error (intendedScale : String → ScalePreset)
    (snaps : List Snapshot) (dc : String) (remaining : List String) :
    (∀ (fetches : List FetchResult) (r : List String) (msg : String),
        waitForScale intendedScale fetches r = WaitResult.timeoutErr msg →
        msg = "Timeout while verifying instance count (10m)") ∧
    (dc ∈ remaining → (∀ s ∈ snaps, s dc = none) →
        waitForScale intendedScale (snaps.map FetchResult.ok) remaining =
          WaitResult.timeoutErr "Timeout while verifying instance count (10m)") :=
  ⟨waitForScale_timeout_msg_fixed intendedScale,
   fun hmem hmiss =>
     waitForScale_missing_region_timeout intendedScale snaps remaining dc hmem hmiss⟩

/-- An always-empty snapshot, used as the snapshot of a cycle in which
a polled datacenter has not been provisioned. -/
def emptySnap : Snapshot := fun _ => none

/-- Witness for the amended C4: one pre-deadline snapshot, none of which
contains `sfo`, ends in the fixed timeout error. -/
theorem waitForScale_timeout_plain_error_witness :
    ("sfo" ∈ ["sfo"]) ∧ (∀ s ∈ [emptySnap], s "sfo" = none) ∧
    waitForScale oneEachScale ([emptySnap].map FetchResult.ok) ["sfo"] =
      WaitResult.timeoutErr "Timeout while verifying instance count (10m)" ∧
    "Timeout while verifying instance count (10m)" =
      "Timeout while verifying instance count (10m)" :=
  ⟨by simp, fun s hs => by rw [List.mem_singleton] at hs; rw [hs]; rfl,
   (waitForScale_timeout_plain_error oneEachScale [emptySnap] "sfo" ["sfo"]).2
     (by simp) (fun s hs => by rw [List.mem_singleton] at hs; rw [hs]; rfl),
   (waitForScale_timeout_plain_error oneEachScale [emptySnap] "sfo" ["sfo"]).1
     [] ["sfo"] "Timeout while verifying instance count (10m)" rfl⟩

/-- A concrete snapshot that satisfies `oneEachScale` for every
datacenter: every datacenter reports exactly one instance. -/
def convergedSnap : Snapshot := fun _ => some { instances := ["i1"] }

/-- C8 counterexample: a transport failure on the first fetch aborts the
whole verification with that error — even though the deadline has not
elapsed (a later fetch slot remains) and the very next snapshot would
have converged, as the second run shows. -/
theorem waitForScale_fetch_error_not_retried :
    waitForScale oneEachScale
        [FetchResult.failed "ECONNRESET", FetchResult.ok convergedSnap] ["sfo"] =
      WaitResult.fetchError "ECONNRESET" ∧
    waitForScale oneEachScale [FetchResult.ok convergedSnap] ["sfo"] =
      WaitResult.success :=
  ⟨rfl, rfl⟩

/-- C8 amended: `now.fetch` inside the poll loop is not wrapped in any
try/catch, so a fetch-level transport failure escalates immediately out
of `waitForScale`, whatever datacenters remain and however many poll
cycles the deadline still allows; the cycle is not treated as having no
snapshot and the fetch is not retried. -/
theorem waitForScale_fetch_error_escalates (intendedScale : String → ScalePreset)
    (e : String) (rest : List FetchResult) (remaining : List String) :
    waitForScale intendedScale (FetchResult.failed e :: rest) remaining =
      WaitResult.fetchError e :=
  rfl

/-- Embedding of `formatText(text)` from inspect.js: strip one trailing
newline, then one leading newline. -/
def formatText (text : String) : String :=
  let a := if text.endsWith "\n" then text.dropRight 1 else text
  if a.startsWith "\n" then a.drop 1 else a

/-- The per-line replace step applied to each forwarded stdout or
stderr line: strip one leading prompt marker. -/
def stripLeadingPrompt (s : String) : String :=
  if s.startsWith "> " then s.drop 2 else s

/-- One item of the ordered build-event feed, as consumed by the
for-await loop in inspect.js: its `type` tag, the `payload.value` field
read for state-change events, and the `payload.text` field read for
textual events.  Order of arrival is the order of the event list. -/
structure BuildEvent where
  type : String
  payloadValue : String
  payloadText : String
deriving DecidableEq, Repr

/-- One user-visible output emitted while consuming the event feed:
a line through `output.log`, or a message through `output.error`. -/
inductive OutputItem
  | log (s : String)
  | errorMsg (s : String)
deriving DecidableEq, Repr

/-- Modelled from the spec: how the lazy event sequence produced by
`getDeploymentEvents` (a utility outside these source files) ends — it
either closes normally at end of events, or is severed by a transport
failure, which the for-await loop propagates as a connection error
distinct from any build outcome. -/
inductive StreamEnd
  | closed
  | severed
deriving DecidableEq, Repr

/-- How the event-consuming loop in inspect.js ends: the break on a
READY state-change, the `Build failed` path on an ERROR state-change
(`output.error` plus `exit(1)` at the consumption site), a propagated
transport error (modelled from the spec for a severed stream), or
normal exhaustion of a closed stream with no terminal state. -/
inductive ConsumeOutcome
  | completed
  | buildFailed
  | connectionError
  | streamEnded
deriving DecidableEq, Repr

/-- Embedding of the event dispatch of one loop iteration for a
non-terminal event (the chain of `if` forwarding branches in
inspect.js): `build-start` logs a fixed building line, `command` logs
the formatted text behind a marker, `stdout`/`stderr` log each line of
the formatted text with a leading prompt stripped, and any other event
(including non-terminal state-changes) is not forwarded. -/
def forwardEvent (e : BuildEvent) : List OutputItem :=
  if e.type = "build-start" then
    [OutputItem.log "Building…"]
  else if e.type = "command" then
    [OutputItem.log ("▲ " ++ formatText e.payloadText)]
  else if e.type = "stdout" ∨ e.type = "stderr" then
    ((formatText e.payloadText).splitOn "\n").map
      (fun v => OutputItem.log (stripLeadingPrompt v))
  else
    []

/-- The outputs forwarded for a list of consecutive non-terminal
events, in arrival order. -/
def forwardAll : List BuildEvent → List OutputItem
  | [] => []
  | e :: rest => forwardEvent e ++ forwardAll rest

/-- Embedding of the for-await event loop of inspect.js: events are
taken strictly in sequence order; a `state-change` to `READY` logs
`Build completed` and breaks out of the loop; a `state-change` to
`ERROR` reports `Build failed` through `output.error` and ends the
consumption with the distinguished failed outcome; every other event is
forwarded and consumption continues.  When the list is exhausted the
outcome is decided by how the stream ended. -/
def consumeEvents (ending : StreamEnd) : List BuildEvent → List OutputItem × ConsumeOutcome
  | [] =>
    ([], match ending with
         | StreamEnd.closed => ConsumeOutcome.streamEnded
         | StreamEnd.severed => ConsumeOutcome.connectionError)
  | e :: rest =>
    if e.type = "state-change" ∧ e.payloadValue = "READY" then
      ([OutputItem.log "Build completed"], ConsumeOutcome.completed)
    else if e.type = "state-change" ∧ e.payloadValue = "ERROR" then
      ([OutputItem.errorMsg "Build failed"], ConsumeOutcome.buildFailed)
    else
      let r := consumeEvents ending rest
      (forwardEvent e ++ r.1, r.2)

/-- An event that is neither the READY nor the ERROR terminal
state-change. -/
abbrev nonTerminal (e : BuildEvent) : Prop :=
  ¬(e.type = "state-change" ∧ e.payloadValue = "READY") ∧
  ¬(e.type = "state-change" ∧ e.payloadValue = "ERROR")

/-- Helper: consuming a list that starts with non-terminal events
forwards them in order and continues with the rest. -/
theorem consumeEvents_append (ending : StreamEnd) (pre rest : List BuildEvent)
    (hpre : ∀ e ∈ pre, nonTerminal e) :
    consumeEvents ending (pre ++ rest) =
      (forwardAll pre ++ (consumeEvents ending rest).1,
       (consumeEvents ending rest).2) := by
  induction pre with
  | nil => simp [forwardAll]
  | cons e pre ih =>
    have he := hpre e (by simp)
    have ih2 := ih (fun x hx => hpre x (List.mem_cons_of_mem _ hx))
    simp only [List.cons_append, consumeEvents, if_neg he.1, if_neg he.2, forwardAll]
    simp only [List.append_eq]
    rw [ih2]
    simp [List.append_assoc]

/-- C5: events are consumed strictly in sequence order, and at the first
`state-change` to `READY` the loop logs exactly one `Build completed`
signal and breaks: the outputs are the in-order forwards of the earlier
events followed by the single terminal signal, and the events after the
READY state-change never influence the result (they are not observed). -/
theorem consumeEvents_stops_at_first_ready (ending : StreamEnd)
    (pre post : List BuildEvent) (ev : BuildEvent)
    (hpre : ∀ e ∈ pre, nonTerminal e)
    (hty : ev.type = "state-change") (hval : ev.payloadValue = "READY") :
    consumeEvents ending (pre ++ ev :: post) =
      (forwardAll pre ++ [OutputItem.log "Build completed"],
       ConsumeOutcome.completed) := by
  rw [consumeEvents_append ending pre (ev :: post) hpre]
  have hterm : consumeEvents ending (ev :: post) =
      ([OutputItem.log "Build completed"], ConsumeOutcome.completed) := by
    simp only [consumeEvents]
    rw [if_pos ⟨hty, hval⟩]
  rw [hterm]

/-- Witness for C5: the sequence from the spec, `[build-start, stdout(a),
state-change(BUILDING), state-change(READY)]` with one injected event
after the READY state-change. -/
theorem consumeEvents_stops_at_first_ready_witness :
    (∀ e ∈ [({ type := "build-start", payloadValue := "", payloadText := "" } : BuildEvent),
            { type := "stdout", payloadValue := "", payloadText := "a" },
            { type := "state-change", payloadValue := "BUILDING", payloadText := "" }],
        nonTerminal e) ∧
    consumeEvents StreamEnd.closed
        ([({ type := "build-start", payloadValue := "", payloadText := "" } : BuildEvent),
          { type := "stdout", payloadValue := "", payloadText := "a" },
          { type := "state-change", payloadValue := "BUILDING", payloadText := "" }] ++
         { type := "state-change", payloadValue := "READY", payloadText := "" } ::
         [{ type := "stdout", payloadValue := "", payloadText := "injected" }]) =
      (forwardAll
          [({ type := "build-start", payloadValue := "", payloadText := "" } : BuildEvent),
           { type := "stdout", payloadValue := "", payloadText := "a" },
           { type := "state-change", payloadValue := "BUILDING", payloadText := "" }] ++
        [OutputItem.log "Build completed"], ConsumeOutcome.completed) :=
  ⟨by decide,
   consumeEvents_stops_at_first_ready StreamEnd.closed
     [{ type := "build-start", payloadValue := "", payloadText := "" },
      { type := "stdout", payloadValue := "", payloadText := "a" },
      { type := "state-change", payloadValue := "BUILDING", payloadText := "" }]
     [{ type := "stdout", payloadValue := "", payloadText := "injected" }]
     { type := "state-change", payloadValue := "READY", payloadText := "" }
     (by decide) rfl rfl⟩

/-- C6: a sequence whose first terminal event is a `state-change` to
`ERROR` ends with the `Build failed` message through `output.error` and
the distinguished failed outcome (the consumption site then exits with
code 1 — it is never reported as a transport failure), while a stream
severed before any terminal state ends in the connection-error outcome,
never the failed-build outcome; the two outcomes are distinct values. -/
theorem consumeEvents_error_separation (ending : StreamEnd)
    (pre evs : List BuildEvent) (ev : BuildEvent)
    (hpre : ∀ e ∈ pre, nonTerminal e)
    (hty : ev.type = "state-change") (hval : ev.payloadValue = "ERROR")
    (hevs : ∀ e ∈ evs, nonTerminal e) :
    consumeEvents ending (pre ++ [ev]) =
      (forwardAll pre ++ [OutputItem.errorMsg "Build failed"],
       ConsumeOutcome.buildFailed) ∧
    consumeEvents StreamEnd.severed evs =
      (forwardAll evs, ConsumeOutcome.connectionError) ∧
    ConsumeOutcome.buildFailed ≠ ConsumeOutcome.connectionError := by
  refine ⟨?_, ?_, by simp⟩
  · rw [consumeEvents_append ending pre [ev] hpre]
    have hterm : consumeEvents ending [ev] =
        ([OutputItem.errorMsg "Build failed"], ConsumeOutcome.buildFailed) := by
      simp only [consumeEvents]
      rw [if_neg (fun hcon => by rw [hval] at hcon; exact absurd hcon.2 (by decide)),
        if_pos ⟨hty, hval⟩]
    rw [hterm]
  · have h := consumeEvents_append StreamEnd.severed evs [] hevs
    rw [List.append_nil] at h
    rw [h]
    simp [consumeEvents]

/-- Witness for C6: forwarded `build-start` then the ERROR state-change;
severed stream carrying one stdout event. -/
theorem consumeEvents_error_separation_witness :
    (∀ e ∈ [({ type := "build-start", payloadValue := "", payloadText := "" } : BuildEvent)],
        nonTerminal e) ∧
    (∀ e ∈ [({ type := "stdout", payloadValue := "", payloadText := "x" } : BuildEvent)],
        nonTerminal e) ∧
    (consumeEvents StreamEnd.closed
        ([({ type := "build-start", payloadValue := "", payloadText := "" } : BuildEvent)] ++
         [{ type := "state-change", payloadValue := "ERROR", payloadText := "" }]) =
      (forwardAll [({ type := "build-start", payloadValue := "", payloadText := "" } : BuildEvent)] ++
        [OutputItem.errorMsg "Build failed"], ConsumeOutcome.buildFailed) ∧
     consumeEvents StreamEnd.severed
        [({ type := "stdout", payloadValue := "", payloadText := "x" } : BuildEvent)] =
      (forwardAll [({ type := "stdout", payloadValue := "", payloadText := "x" } : BuildEvent)],
       ConsumeOutcome.connectionError) ∧
     ConsumeOutcome.buildFailed ≠ ConsumeOutcome.connectionError) :=
  ⟨by decide, by decide,
   consumeEvents_error_separation StreamEnd.closed
     [{ type := "build-start", payloadValue := "", payloadText := "" }]
     [{ type := "stdout", payloadValue := "", payloadText := "x" }]
     { type := "state-change", payloadValue := "ERROR", payloadText := "" }
     (by decide) rfl rfl (by decide)⟩

/-- The state owned by one `onExit(fn)` registration in the scale
command: the `exit` flag closed over by the installed handler, plus an
instrumentation counter for how many times `fn` has run. -/
structure OnExitState where
  exitFlag : Bool
  fnCalls : Nat
deriving DecidableEq, Repr

/-- Embedding of the installed handler `onExit_`: if the flag is set it
returns at once; otherwise it invokes `fn` and then sets the flag. -/
def onExitHandler (s : OnExitState) : OnExitState :=
  if s.exitFlag then s else { exitFlag := true, fnCalls := s.fnCalls + 1 }

/-- `n` consecutive deliveries of an interruption signal to the same
installed handler. -/
def iterateHandler : Nat → OnExitState → OnExitState
  | 0, s => s
  | n + 1, s => iterateHandler n (onExitHandler s)

/-- Helper: once the flag is set, further deliveries change nothing. -/
theorem iterateHandler_fixed (n : Nat) (c : Nat) :
    iterateHandler n { exitFlag := true, fnCalls := c } =
      { exitFlag := true, fnCalls := c } := by
  induction n with
  | zero => rfl
  | succ n ih => exact ih

/-- C9: the handler installed by `onExit` is idempotent — delivering the
signal `n ≥ 1` times from the fresh registration state invokes the
wrapped callback exactly once and leaves the state exactly as a single
delivery does. -/
theorem onExit_idempotent (n : Nat) (h : 1 ≤ n) :
    iterateHandler n { exitFlag := false, fnCalls := 0 } =
      iterateHandler 1 { exitFlag := false, fnCalls := 0 } ∧
    (iterateHandler n { exitFlag := false, fnCalls := 0 }).fnCalls = 1 := by
  cases n with
  | zero => exact absurd h (by decide)
  | succ m =>
    have h1 : iterateHandler (m + 1) { exitFlag := false, fnCalls := 0 } =
        iterateHandler m { exitFlag := true, fnCalls := 1 } := rfl
    rw [h1, iterateHandler_fixed]
    exact ⟨rfl, rfl⟩

/-- Witness for C9 at `n = 3`. -/
theorem onExit_idempotent_witness :
    iterateHandler 3 { exitFlag := false, fnCalls := 0 } =
      iterateHandler 1 { exitFlag := false, fnCalls := 0 } ∧
    (iterateHandler 3 { exitFlag := false, fnCalls := 0 }).fnCalls = 1 :=
  onExit_idempotent 3 (by decide)

/-- What the scale command does after the scale rules were saved
successfully: whether it ran convergence verification, and how it ends
(`some code` for a normal return, `none` when the verification error is
rethrown).  Embedding of the tail of `main`: when the deployment type is
`BINARY` or `--no-verify` was given, it prints the success message,
closes the client and returns 0 at once; otherwise it runs
`waitForScale` and either returns 0 on success or rethrows. -/
structure PostScaleOutcome where
  ranVerification : Bool
  exitCode : Option Nat
deriving DecidableEq, Repr

/-- Embedding of the early-return branch of `main` (deployment type
`BINARY`, or the `--no-verify` flag given) and the verification call
after it. -/
def afterScaleSaved (deploymentType : String) (noVerify : Bool)
    (intendedScale : String → ScalePreset) (fetches : List FetchResult)
    (dcIds : List String) : PostScaleOutcome :=
  if deploymentType = "BINARY" ∨ noVerify then
    { ranVerification := false, exitCode := some 0 }
  else
    match waitForScale intendedScale fetches dcIds with
    | WaitResult.success => { ranVerification := true, exitCode := some 0 }
    | _ => { ranVerification := true, exitCode := none }

/-- C10: when the type of the resolved deployment is `BINARY` or the
`--no-verify` flag was given, the scale command returns exit code 0
directly after the scale rules are saved and runs no convergence
verification: `waitForScale` is never invoked and no poll cycle runs. -/
theorem afterScaleSaved_skips_verification (deploymentType : String)
    (noVerify : Bool) (intendedScale : String → ScalePreset)
    (fetches : List FetchResult) (dcIds : List String)
    (h : deploymentType = "BINARY" ∨ noVerify = true) :
    afterScaleSaved deploymentType noVerify intendedScale fetches dcIds =
      { ranVerification := false, exitCode := some 0 } := by
  rcases h with h | h <;> simp [afterScaleSaved, h]

/-- Witness for C10: a `BINARY` deployment without `--no-verify`, and a
`DOCKER` deployment with `--no-verify`. -/
theorem afterScaleSaved_skips_verification_witness :
    ("BINARY" = "BINARY" ∨ false = true) ∧
    afterScaleSaved "BINARY" false oneEachScale [FetchResult.ok convergedSnap] ["sfo"] =
      { ranVerification := false, exitCode := some 0 } ∧
    ("DOCKER" = "BINARY" ∨ true = true) ∧
    afterScaleSaved "DOCKER" true oneEachScale [FetchResult.ok convergedSnap] ["sfo"] =
      { ranVerification := false, exitCode := some 0 } :=
  ⟨Or.inl rfl,
   afterScaleSaved_skips_verification "BINARY" false oneEachScale
     [FetchResult.ok convergedSnap] ["sfo"] (Or.inl rfl),
   Or.inr rfl,
   afterScaleSaved_skips_verification "DOCKER" true oneEachScale
     [FetchResult.ok convergedSnap] ["sfo"] (Or.inr rfl)⟩
